import Mathlib

/-!
# Verification of the correlation layer of `src/bot_api.js`

Shallow embedding of the correlation machinery of the `Bot` class:

* the send-wait registry built from `EventEmitter.once`/`emit`
  (`_waitMessageTillSent` and the `__updateMessageSendSucceeded` /
  `__updateMessageSendFailed` handlers installed in the constructor),
* the initialization sequencer `_initChatIfNeeded`,
* the username cache `_checkChatId`,
* the callback-query payload cipher in `_parseReplyMarkup` /
  `_processIncomingCallbackQuery` (AES-256-CFB with a random 16-byte IV,
  base-64 transport encoding),
* `deleteMessage`, and the not-ready guards of the public facade
  operations (`sendMessage`, `answerCallbackQuery`, `getFile`).

Stateful JS code is embedded as explicit state passing; every transport
interaction (`this.run(op, params)`) is recorded in a trace of `TdCall`
values and answered by an oracle supplied as a parameter.
-/

namespace BotApi

/-- A named transport invocation `this.run(op, params)` issued by the
facade.  Each constructor carries the parameters the source passes. -/
inductive TdCall : Type where
  | getChat (chat_id : Int)
  | getSupergroup (supergroup_id : Int)
  | createSupergroupChat (supergroup_id : Int)
  | getBasicGroup (basic_group_id : Int)
  | createBasicGroupChat (basic_group_id : Int)
  | getUser (user_id : Int)
  | createPrivateChat (user_id : Int)
  | searchPublicChat (username : String)
  | sendMessage (chat_id : Int)
  | answerCallbackQuery (callback_query_id : Int)
  | getFile (file_id : Int)
  | downloadFile (file_id : Int) (priority : Int)
  | getMessages (chat_id : Int) (message_ids : List Int)
  | deleteMessages (chat_id : Int) (message_ids : List Int) (revoke : Bool)
  deriving DecidableEq, Repr

/-- Transport oracle: whether a given call succeeds (`true`) or throws. -/
abbrev Transport : Type := TdCall → Bool

/-! ## Send-wait registry

`_waitMessageTillSent(chat_id, message_id)` registers a one-shot
listener (`self.once`) on the event name
`` `_sendMsg:${chat_id}:${message_id}` ``; the constructor's handlers for
`__updateMessageSendSucceeded` / `__updateMessageSendFailed` emit that
event with an `ok`/failure payload.  Node's `emit` removes every
once-listener for the name and then invokes each with the payload; an
`emit` with no listener for the name does nothing and returns normally.
We model the registry as the list of `(event name, promise id)` pairs of
currently installed once-listeners, and a delivery as returning the new
registry together with the list of promise settlements it caused. -/

/-- The event name `` `_sendMsg:${chat_id}:${message_id}` `` used as the
correlation key by `_waitMessageTillSent` and the constructor handlers. -/
def sendMsgKey (chat_id message_id : Int) : String :=
  "_sendMsg:" ++ toString chat_id ++ ":" ++ toString message_id

/-- Registry of pending one-shot listeners: event name paired with an
identifier of the waiting promise. -/
abbrev Registry : Type := List (String × Nat)

/-- Payload emitted by the constructor's send-result handlers:
`{ok: true, message}` from `__updateMessageSendSucceeded`, or
`{ok: false, code, error_message, message}` from
`__updateMessageSendFailed`. -/
inductive SendPayload : Type where
  | succeeded
  | failed (code : Int) (error_message : String)
  deriving DecidableEq, Repr

/-- How `_waitMessageTillSent`'s listener settles its promise: resolve on
`update.ok`, otherwise reject with `` `${update.code}: ${update.error_message}` ``. -/
inductive Settlement : Type where
  | resolved
  | rejected (message : String)
  deriving DecidableEq, Repr

/-- The body of the listener installed by `_waitMessageTillSent`. -/
def settleOf : SendPayload → Settlement
  | .succeeded => .resolved
  | .failed code error_message => .rejected (toString code ++ ": " ++ error_message)

/-- `self.once(name, listener)`: appends a one-shot listener. -/
def once (r : Registry) (name : String) (pid : Nat) : Registry :=
  r ++ [(name, pid)]

/-- `_waitMessageTillSent(chat_id, message_id)`: registers a one-shot
listener under the send key and returns the pending promise `pid`. -/
def waitMessageTillSent (r : Registry) (chat_id message_id : Int) (pid : Nat) : Registry :=
  once r (sendMsgKey chat_id message_id) pid

/-- `this.emit(name, payload)` over once-listeners: every listener
registered for `name` is removed and invoked with the payload (in
registration order); listeners for other names are untouched.  Returns
the new registry and the settlements performed.  Total: an emit with no
matching listener returns the registry unchanged with no settlement. -/
def emitOnce (r : Registry) (name : String) (p : SendPayload) :
    Registry × List (Nat × Settlement) :=
  (r.filter (fun e => e.1 ≠ name),
   (r.filter (fun e => e.1 = name)).map (fun e => (e.2, settleOf p)))

/-- The `__updateMessageSendSucceeded` handler: emits the send key of the
update's `(chat_id, old_message_id)` with an `ok` payload. -/
def onUpdateMessageSendSucceeded (r : Registry) (chat_id old_message_id : Int) :
    Registry × List (Nat × Settlement) :=
  emitOnce r (sendMsgKey chat_id old_message_id) .succeeded

/-- The `__updateMessageSendFailed` handler: emits the send key with a
failure payload carrying the update's error code and message. -/
def onUpdateMessageSendFailed (r : Registry) (chat_id old_message_id : Int)
    (error_code : Int) (error_message : String) : Registry × List (Nat × Settlement) :=
  emitOnce r (sendMsgKey chat_id old_message_id) (.failed error_code error_message)

/-- Number of waits registered in `r` under event name `name`. -/
def waitCount (r : Registry) (name : String) : Nat :=
  (r.filter (fun e => e.1 = name)).length

lemma waitCount_emitOnce_self (r : Registry) (name : String) (p : SendPayload) :
    waitCount (emitOnce r name p).1 name = 0 := by
  unfold waitCount emitOnce
  simp [List.filter_filter]

lemma emitOnce_settlements_length (r : Registry) (name : String) (p : SendPayload) :
    (emitOnce r name p).2.length = waitCount r name := by
  simp [emitOnce, waitCount]

lemma filter_ne_of_waitCount_zero (r : Registry) (name : String)
    (h : waitCount r name = 0) : r.filter (fun e => e.1 ≠ name) = r := by
  unfold waitCount at h
  rw [List.length_eq_zero] at h
  rw [List.filter_eq_self]
  intro e he
  have : e ∉ r.filter (fun e => e.1 = name) := by rw [h]; exact List.not_mem_nil e
  simp only [List.mem_filter] at this
  by_cases hc : e.1 = name
  · exact absurd ⟨he, by simpa using hc⟩ this
  · simpa using hc

lemma filter_eq_nil_of_waitCount_zero (r : Registry) (name : String)
    (h : waitCount r name = 0) : r.filter (fun e => e.1 = name) = [] := by
  unfold waitCount at h
  exact List.length_eq_zero.mp h

lemma emitOnce_of_not_registered (r : Registry) (name : String) (p : SendPayload)
    (h : waitCount r name = 0) : emitOnce r name p = (r, []) := by
  unfold emitOnce
  rw [filter_ne_of_waitCount_zero r name h, filter_eq_nil_of_waitCount_zero r name h]
  rfl

/-- Dispatch of a send-result update to the matching constructor handler:
a `__updateMessageSendSucceeded` update goes to the success handler, a
`__updateMessageSendFailed` update to the failure handler. -/
def deliverUpdate (r : Registry) (chat_id old_message_id : Int) :
    SendPayload → Registry × List (Nat × Settlement)
  | .succeeded => onUpdateMessageSendSucceeded r chat_id old_message_id
  | .failed code msg => onUpdateMessageSendFailed r chat_id old_message_id code msg

lemma deliverUpdate_eq_emitOnce (r : Registry) (c m : Int) (p : SendPayload) :
    deliverUpdate r c m p = emitOnce r (sendMsgKey c m) p := by
  cases p <;> rfl

lemma emitOnce_once_self (r : Registry) (name : String) (pid : Nat) (p : SendPayload)
    (h : waitCount r name = 0) :
    emitOnce (once r name pid) name p = (r, [(pid, settleOf p)]) := by
  unfold emitOnce once
  rw [List.filter_append, List.filter_append,
    filter_ne_of_waitCount_zero r name h, filter_eq_nil_of_waitCount_zero r name h]
  simp

/-- C1: a registered send-wait keyed by `(chat_id, echoed message id)` is
settled exactly once by the first matching send-succeeded or send-failed
update — the delivery settles precisely the registered promise (resolving
on success, rejecting on failure) and removes the wait from the registry —
and a second update delivered for the same key afterwards settles nothing
and leaves the registry unchanged. -/
theorem sendWait_settled_exactly_once (r : Registry) (c m : Int) (pid : Nat)
    (p p' : SendPayload) (h : waitCount r (sendMsgKey c m) = 0) :
    deliverUpdate (waitMessageTillSent r c m pid) c m p = (r, [(pid, settleOf p)]) ∧
    waitCount (deliverUpdate (waitMessageTillSent r c m pid) c m p).1 (sendMsgKey c m) = 0 ∧
    deliverUpdate (deliverUpdate (waitMessageTillSent r c m pid) c m p).1 c m p' =
      ((deliverUpdate (waitMessageTillSent r c m pid) c m p).1, []) := by
  have h1 : deliverUpdate (waitMessageTillSent r c m pid) c m p = (r, [(pid, settleOf p)]) := by
    rw [deliverUpdate_eq_emitOnce]
    exact emitOnce_once_self r (sendMsgKey c m) pid p h
  refine ⟨h1, ?_, ?_⟩
  · rw [h1]
    exact h
  · rw [h1, deliverUpdate_eq_emitOnce]
    exact emitOnce_of_not_registered r (sendMsgKey c m) p' h

/-- Witness for C1 at a concrete input: empty registry, key `(42, 7)`,
promise `0`, a success update followed by a stale failure update. -/
theorem sendWait_settled_exactly_once_witness :
    waitCount [] (sendMsgKey 42 7) = 0 ∧
    (deliverUpdate (waitMessageTillSent [] 42 7 0) 42 7 .succeeded =
        ([], [(0, settleOf .succeeded)]) ∧
      waitCount (deliverUpdate (waitMessageTillSent [] 42 7 0) 42 7 .succeeded).1
        (sendMsgKey 42 7) = 0 ∧
      deliverUpdate (deliverUpdate (waitMessageTillSent [] 42 7 0) 42 7 .succeeded).1 42 7
          (.failed 500 "stale") =
        ((deliverUpdate (waitMessageTillSent [] 42 7 0) 42 7 .succeeded).1, [])) :=
  ⟨rfl, sendWait_settled_exactly_once [] 42 7 0 .succeeded (.failed 500 "stale") rfl⟩

/-- C3 counterexample: registering a second wait under the already
registered key `(1, 2)` does not fail the second caller —
`_waitMessageTillSent` unconditionally installs another one-shot
listener, so the registry then holds two concurrent waits under that
key. -/
theorem duplicate_register_creates_concurrent_wait :
    waitCount (waitMessageTillSent (waitMessageTillSent [] 1 2 0) 1 2 1)
      (sendMsgKey 1 2) = 2 := rfl

/-- C3 amended: a second register of an in-flight key succeeds and adds a
second concurrent wait under the key; a single matching delivery then
settles both waiters with the same outcome (in registration order) and
removes both from the registry. -/
theorem duplicate_register_both_settled (r : Registry) (c m : Int) (pid₁ pid₂ : Nat)
    (p : SendPayload) (h : waitCount r (sendMsgKey c m) = 0) :
    waitCount (waitMessageTillSent (waitMessageTillSent r c m pid₁) c m pid₂)
      (sendMsgKey c m) = 2 ∧
    deliverUpdate (waitMessageTillSent (waitMessageTillSent r c m pid₁) c m pid₂) c m p =
      (r, [(pid₁, settleOf p), (pid₂, settleOf p)]) := by
  constructor
  · unfold waitCount waitMessageTillSent once
    rw [List.filter_append, List.filter_append,
      filter_eq_nil_of_waitCount_zero r (sendMsgKey c m) h]
    simp
  · rw [deliverUpdate_eq_emitOnce]
    unfold emitOnce waitMessageTillSent once
    simp [List.filter_append, filter_ne_of_waitCount_zero r (sendMsgKey c m) h,
      filter_eq_nil_of_waitCount_zero r (sendMsgKey c m) h]
    intro a b hab heq
    have hnil := filter_eq_nil_of_waitCount_zero r (sendMsgKey c m) h
    have hnot : (a, b) ∉ r.filter (fun e => e.1 = sendMsgKey c m) := by
      rw [hnil]; exact List.not_mem_nil _
    exact hnot (List.mem_filter.mpr ⟨hab, by simpa using heq⟩)

/-- Witness for C3's amended theorem at a concrete input. -/
theorem duplicate_register_both_settled_witness :
    waitCount [] (sendMsgKey 1 2) = 0 ∧
    (waitCount (waitMessageTillSent (waitMessageTillSent [] 1 2 0) 1 2 1)
        (sendMsgKey 1 2) = 2 ∧
      deliverUpdate (waitMessageTillSent (waitMessageTillSent [] 1 2 0) 1 2 1) 1 2
          .succeeded =
        ([], [(0, settleOf .succeeded), (1, settleOf .succeeded)])) :=
  ⟨rfl, duplicate_register_both_settled [] 1 2 0 1 .succeeded rfl⟩

/-- C9: delivering a send-result update whose key has no registered wait
is a silent no-op — the handler is a total function that performs no
settlement and leaves the registry unchanged. -/
theorem deliver_unregistered_noop (r : Registry) (c m : Int) (p : SendPayload)
    (h : waitCount r (sendMsgKey c m) = 0) :
    deliverUpdate r c m p = (r, []) := by
  rw [deliverUpdate_eq_emitOnce]
  exact emitOnce_of_not_registered r (sendMsgKey c m) p h

/-- Witness for C9 at a concrete input: a registry holding only an
unrelated wait, receiving a failure update for key `(9, 9)`. -/
theorem deliver_unregistered_noop_witness :
    waitCount [(sendMsgKey 1 2, 0)] (sendMsgKey 9 9) = 0 ∧
    deliverUpdate [(sendMsgKey 1 2, 0)] 9 9 (.failed 400 "oops") =
      ([(sendMsgKey 1 2, 0)], []) :=
  ⟨rfl, deliver_unregistered_noop [(sendMsgKey 1 2, 0)] 9 9 (.failed 400 "oops") rfl⟩

/-! ## Initialization sequencer

`_initChatIfNeeded(chat_id)`: returns at once if `chat_id` is in the
`_inited_chat` set; otherwise probes `getChat`; if the probe throws, it
classifies `chat_id` (`chat_id < -10^12` → supergroup branch,
`chat_id < 0` → basic-group branch, otherwise private-chat branch) and
issues the kind-specific descriptor fetch followed by the creation call,
each of which may throw and abort the sequence; on overall success it
adds `chat_id` to `_inited_chat`. -/

/-- The three context kinds of the id encoding. -/
inductive ChatKind : Type where
  | private_chat
  | basic_group
  | supergroup
  deriving DecidableEq, Repr

/-- Classification as the source performs it in `_initChatIfNeeded`:
`chat_id < -Math.pow(10, 12)` → supergroup, else `chat_id < 0` →
basic group, else private chat. -/
def codeChatKind (chat_id : Int) : ChatKind :=
  if chat_id < -(10 ^ 12 : Int) then .supergroup
  else if chat_id < 0 then .basic_group
  else .private_chat

/-- Classification following the spec's words (§6, context-id encoding):
non-negative → individual/direct; negative with magnitude *below* 10^12 →
group kind; negative with magnitude *at or above* 10^12 → supergroup
kind.  Kept separate from `codeChatKind` to compare the two. -/
def specChatKind (chat_id : Int) : ChatKind :=
  if 0 ≤ chat_id then .private_chat
  else if |chat_id| < (10 ^ 12 : Int) then .basic_group
  else .supergroup

/-- The kind-specific descriptor fetch and creation calls issued by the
`catch` branch of `_initChatIfNeeded`, in order. -/
def recoveryCalls (chat_id : Int) : List TdCall :=
  if chat_id < -(10 ^ 12 : Int) then
    [.getSupergroup (|chat_id| - 10 ^ 12), .createSupergroupChat (|chat_id| - 10 ^ 12)]
  else if chat_id < 0 then
    [.getBasicGroup |chat_id|, .createBasicGroupChat |chat_id|]
  else
    [.getUser chat_id, .createPrivateChat chat_id]

/-- Run a sequence of awaited transport calls, stopping at the first one
that throws.  Returns whether all succeeded and the trace of calls
actually issued (the failing call included). -/
def runSeq (tr : Transport) : List TdCall → Bool × List TdCall
  | [] => (true, [])
  | c :: cs =>
    if tr c then
      let r := runSeq tr cs
      (r.1, c :: r.2)
    else (false, [c])

/-- Result of one `_initChatIfNeeded` invocation: whether it returned
normally (`ok = false` means it threw), the new `_inited_chat` set, and
the trace of transport calls issued. -/
structure InitResult : Type where
  ok : Bool
  inited : List Int
  trace : List TdCall
  deriving DecidableEq, Repr

/-- `_initChatIfNeeded(chat_id)` over the `_inited_chat` set. -/
def initChatIfNeeded (tr : Transport) (inited : List Int) (chat_id : Int) : InitResult :=
  if chat_id ∈ inited then ⟨true, inited, []⟩
  else if tr (.getChat chat_id) then ⟨true, chat_id :: inited, [.getChat chat_id]⟩
  else if (runSeq tr (recoveryCalls chat_id)).1 then
    ⟨true, chat_id :: inited, .getChat chat_id :: (runSeq tr (recoveryCalls chat_id)).2⟩
  else ⟨false, inited, .getChat chat_id :: (runSeq tr (recoveryCalls chat_id)).2⟩

/-- `setChatDescription`'s supergroup guard and target: throws
`'Not a supergroup or channel.'` when `chat_id > -Math.pow(10, 12)`,
otherwise calls `setSupergroupDescription` with
`supergroup_id = Math.abs(chat_id) - Math.pow(10, 12)`. -/
def setChatDescriptionTarget (chat_id : Int) : Except String Int :=
  if chat_id > -(10 ^ 12 : Int) then .error "Not a supergroup or channel."
  else .ok (|chat_id| - 10 ^ 12)

lemma initChat_of_mem (tr : Transport) (inited : List Int) (c : Int) (h : c ∈ inited) :
    initChatIfNeeded tr inited c = ⟨true, inited, []⟩ := by
  unfold initChatIfNeeded
  rw [if_pos h]

lemma mem_inited_of_ok (tr : Transport) (inited : List Int) (c : Int)
    (h : (initChatIfNeeded tr inited c).ok = true) :
    c ∈ (initChatIfNeeded tr inited c).inited := by
  unfold initChatIfNeeded at *
  split_ifs at * with h1 h2 h3
  · exact h1
  · exact List.mem_cons_self c inited
  · exact List.mem_cons_self c inited

lemma runSeq_all_ok (tr : Transport) (l : List TdCall) (h : ∀ call ∈ l, tr call = true) :
    runSeq tr l = (true, l) := by
  induction l with
  | nil => rfl
  | cons c cs ih =>
    unfold runSeq
    rw [if_pos (h c (List.mem_cons_self c cs))]
    rw [ih (fun call hc => h call (List.mem_cons_of_mem c hc))]

/-- C5: calling the initialization sequencer a second time for a context
whose first call succeeded finds the id in the initialized set and
returns success immediately, issuing no transport call. -/
theorem initChat_idempotent (tr : Transport) (inited : List Int) (c : Int)
    (h : (initChatIfNeeded tr inited c).ok = true) :
    initChatIfNeeded tr (initChatIfNeeded tr inited c).inited c =
      ⟨true, (initChatIfNeeded tr inited c).inited, []⟩ :=
  initChat_of_mem tr _ c (mem_inited_of_ok tr inited c h)

/-- Witness for C5: chat id `5`, fresh set, transport succeeding on the
probe. -/
theorem initChat_idempotent_witness :
    (initChatIfNeeded (fun _ => true) [] 5).ok = true ∧
    initChatIfNeeded (fun _ => true) (initChatIfNeeded (fun _ => true) [] 5).inited 5 =
      ⟨true, (initChatIfNeeded (fun _ => true) [] 5).inited, []⟩ :=
  ⟨rfl, initChat_idempotent (fun _ => true) [] 5 rfl⟩

/-- C6 counterexample: a failure of the existence probe alone is *not*
surfaced to the caller — with a transport on which `getChat` throws but
the recovery calls succeed, `_initChatIfNeeded(5)` recovers, returns
normally and adds `5` to the initialized set. -/
theorem initChat_probe_failure_recovered :
    initChatIfNeeded (fun call => match call with | .getChat _ => false | _ => true) [] 5 =
      ⟨true, [5], [.getChat 5, .getUser 5, .createPrivateChat 5]⟩ := rfl

/-- C6 amended: a failing existence probe is caught and answered by the
kind-specific recovery sequence; if that recovery sequence itself fails
(descriptor fetch or creation call throws), the failure is surfaced to
the caller and the context id is not added to the initialized set, so a
subsequent call for the same context performs the full sequence again
with an identical trace. -/
theorem initChat_failure_not_marked (tr : Transport) (inited : List Int) (c : Int)
    (hni : c ∉ inited) (hp : tr (.getChat c) = false)
    (hr : (runSeq tr (recoveryCalls c)).1 = false) :
    (initChatIfNeeded tr inited c).ok = false ∧
    (initChatIfNeeded tr inited c).inited = inited ∧
    c ∉ (initChatIfNeeded tr inited c).inited ∧
    (initChatIfNeeded tr inited c).trace =
      .getChat c :: (runSeq tr (recoveryCalls c)).2 ∧
    initChatIfNeeded tr (initChatIfNeeded tr inited c).inited c =
      initChatIfNeeded tr inited c := by
  have hres : initChatIfNeeded tr inited c =
      ⟨false, inited, .getChat c :: (runSeq tr (recoveryCalls c)).2⟩ := by
    unfold initChatIfNeeded
    rw [if_neg hni, if_neg (by simp [hp]), if_neg (by simp [hr])]
  refine ⟨by rw [hres], by rw [hres], by rw [hres]; exact hni, by rw [hres], ?_⟩
  have hinit : (initChatIfNeeded tr inited c).inited = inited := by rw [hres]
  rw [hinit]

/-- Witness for C6's amended theorem: chat id `5`, transport on which
everything throws. -/
theorem initChat_failure_not_marked_witness :
    (5 : Int) ∉ ([] : List Int) ∧ (fun _ => false : Transport) (.getChat 5) = false ∧
    (runSeq (fun _ => false) (recoveryCalls 5)).1 = false ∧
    ((initChatIfNeeded (fun _ => false) [] 5).ok = false ∧
      (initChatIfNeeded (fun _ => false) [] 5).inited = [] ∧
      (5 : Int) ∉ (initChatIfNeeded (fun _ => false) [] 5).inited ∧
      (initChatIfNeeded (fun _ => false) [] 5).trace =
        .getChat 5 :: (runSeq (fun _ => false) (recoveryCalls 5)).2 ∧
      initChatIfNeeded (fun _ => false) (initChatIfNeeded (fun _ => false) [] 5).inited 5 =
        initChatIfNeeded (fun _ => false) [] 5) :=
  ⟨by simp, rfl, rfl,
    initChat_failure_not_marked (fun _ => false) [] 5 (by simp) rfl rfl⟩

/-- C2 counterexample: at `chat_id = -10^12` (magnitude exactly at the
threshold) the spec's encoding classifies the context as supergroup
kind, but `_initChatIfNeeded` takes the basic-group branch
(`chat_id < -Math.pow(10, 12)` is strict): after a failed probe it calls
`getBasicGroup`/`createBasicGroupChat` with id `10^12`, not
`getSupergroup` with id `0`. -/
theorem ctxid_boundary_mismatch :
    specChatKind (-(10 ^ 12)) = ChatKind.supergroup ∧
    codeChatKind (-(10 ^ 12)) = ChatKind.basic_group ∧
    (initChatIfNeeded (fun call => match call with | .getChat _ => false | _ => true)
        [] (-(10 ^ 12))).trace =
      [.getChat (-(10 ^ 12)), .getBasicGroup (10 ^ 12), .createBasicGroupChat (10 ^ 12)] := by
  refine ⟨?_, ?_, rfl⟩ <;> decide

/-- C2 amended: the initialization sequencer classifies non-negative ids
as individual/direct contexts, negative ids with magnitude *at most*
10^12 as group contexts (descriptor fetch and creation by magnitude),
and negative ids with magnitude *strictly above* 10^12 as
supergroup/broadcast contexts whose kind-specific calls use magnitude
minus 10^12 as the group identifier (as does `setChatDescription`). -/
theorem ctxid_classification (tr : Transport) (inited : List Int) (c : Int)
    (hni : c ∉ inited) (hp : tr (.getChat c) = false)
    (hrec : ∀ call ∈ recoveryCalls c, tr call = true) :
    (0 ≤ c → codeChatKind c = .private_chat ∧
      (initChatIfNeeded tr inited c).trace =
        [.getChat c, .getUser c, .createPrivateChat c]) ∧
    (-(10 ^ 12 : Int) ≤ c → c < 0 → codeChatKind c = .basic_group ∧
      (initChatIfNeeded tr inited c).trace =
        [.getChat c, .getBasicGroup |c|, .createBasicGroupChat |c|]) ∧
    (c < -(10 ^ 12 : Int) → codeChatKind c = .supergroup ∧
      (initChatIfNeeded tr inited c).trace =
        [.getChat c, .getSupergroup (|c| - 10 ^ 12), .createSupergroupChat (|c| - 10 ^ 12)] ∧
      setChatDescriptionTarget c = .ok (|c| - 10 ^ 12)) := by
  have htrace : (initChatIfNeeded tr inited c).trace = .getChat c :: recoveryCalls c := by
    unfold initChatIfNeeded
    rw [if_neg hni, if_neg (by simp [hp]), runSeq_all_ok tr (recoveryCalls c) hrec]
    simp
  refine ⟨fun h0 => ⟨?_, ?_⟩, fun hge hlt => ⟨?_, ?_⟩, fun hlt => ⟨?_, ?_, ?_⟩⟩
  · unfold codeChatKind
    rw [if_neg (by omega), if_neg (by omega)]
  · rw [htrace]
    unfold recoveryCalls
    rw [if_neg (by omega), if_neg (by omega)]
  · unfold codeChatKind
    rw [if_neg (by omega), if_pos hlt]
  · rw [htrace]
    unfold recoveryCalls
    rw [if_neg (by omega), if_pos hlt]
  · unfold codeChatKind
    rw [if_pos hlt]
  · rw [htrace]
    unfold recoveryCalls
    rw [if_pos hlt]
  · unfold setChatDescriptionTarget
    rw [if_neg (by omega)]

/-- Witness for C2's amended theorem: the supergroup chat id
`-10^12 - 123` with a transport failing only the probe. -/
theorem ctxid_classification_witness :
    (-(10 ^ 12) - 123 : Int) ∉ ([] : List Int) ∧
    (fun call => match call with | TdCall.getChat _ => false | _ => true : Transport)
      (.getChat (-(10 ^ 12) - 123)) = false ∧
    (∀ call ∈ recoveryCalls (-(10 ^ 12) - 123),
      (fun call => match call with | TdCall.getChat _ => false | _ => true : Transport)
        call = true) ∧
    (codeChatKind (-(10 ^ 12) - 123) = .supergroup ∧
      (initChatIfNeeded
          (fun call => match call with | TdCall.getChat _ => false | _ => true)
          [] (-(10 ^ 12) - 123)).trace =
        [.getChat (-(10 ^ 12) - 123), .getSupergroup (|(-(10 ^ 12) - 123 : Int)| - 10 ^ 12),
          .createSupergroupChat (|(-(10 ^ 12) - 123 : Int)| - 10 ^ 12)] ∧
      setChatDescriptionTarget (-(10 ^ 12) - 123) =
        .ok (|(-(10 ^ 12) - 123 : Int)| - 10 ^ 12)) :=
  ⟨by simp, rfl, by decide,
    ((ctxid_classification
        (fun call => match call with | TdCall.getChat _ => false | _ => true)
        [] (-(10 ^ 12) - 123) (by simp) rfl (by decide)).2.2 (by decide))⟩

/-! ## Username cache (`_checkChatId`)

For a non-numeric `chat_id`, `_checkChatId` extracts the handle with a
regular expression, returns `cached_chat.data.id` when the cache holds
the handle and `Date.now() - cached_chat.timestamp <
this._username_cache_period`, and otherwise calls
`searchPublicChat`; a successful resolution is stored back with
`this._username_cache.set(username, {data, timestamp: Date.now()})`
(a JS `Map.set`, replacing any previous entry for the handle), and a
failed one is wrapped as `'cannot resolve name: ' + chat_id`.  We embed
the cache as an association list with `Map`-like get/set, take the
already-matched handle string as input, and record external lookups in
the `TdCall` trace. -/

/-- One `_username_cache` value: the resolved chat id and the
`Date.now()` timestamp stored beside it. -/
structure CacheEntry : Type where
  id : Int
  timestamp : Int
  deriving DecidableEq, Repr

/-- The `_username_cache` map, as an association list with unique keys
(insertion order preserved, as in a JS `Map`). -/
abbrev UsernameCache : Type := List (String × CacheEntry)

/-- `Map.prototype.get`/`has`: the entry stored under `u`, if any. -/
def cacheGet (c : UsernameCache) (u : String) : Option CacheEntry :=
  (c.find? (fun x => x.1 = u)).map (fun x => x.2)

/-- `Map.prototype.set`: replace the entry stored under `u` in place, or
append a new one. -/
def cacheSet : UsernameCache → String → CacheEntry → UsernameCache
  | [], u, e => [(u, e)]
  | x :: xs, u, e => if x.1 = u then (u, e) :: xs else x :: cacheSet xs u e

/-- Number of cache entries stored under handle `u` (a JS `Map` keeps at
most one). -/
def countFor (c : UsernameCache) (u : String) : Nat :=
  (c.filter (fun x => x.1 = u)).length

/-- Result of one username resolution: the returned or thrown value, the
cache afterwards, and the external lookups performed. -/
structure ResolveResult : Type where
  result : Except String Int
  cache : UsernameCache
  calls : List TdCall
  deriving Repr

/-- The cache-miss / stale-hit path of `_checkChatId`: call
`searchPublicChat`, store the resolution with the current timestamp, or
throw the wrapped resolution failure. -/
def freshResolve (cache : UsernameCache) (now : Int) (lookup : String → Option Int)
    (username : String) : ResolveResult :=
  match lookup username with
  | some id => ⟨.ok id, cacheSet cache username ⟨id, now⟩, [.searchPublicChat username]⟩
  | none => ⟨.error ("cannot resolve name: " ++ username), cache, [.searchPublicChat username]⟩

/-- The non-numeric branch of `_checkChatId`: a live cache hit answers
from the cache with no transport call; a stale or absent entry goes
through `freshResolve`. -/
def checkChatIdUsername (cache : UsernameCache) (period now : Int)
    (lookup : String → Option Int) (username : String) : ResolveResult :=
  match cacheGet cache username with
  | some e =>
    if now - e.timestamp < period then ⟨.ok e.id, cache, []⟩
    else freshResolve cache now lookup username
  | none => freshResolve cache now lookup username

lemma cacheGet_cacheSet_self (c : UsernameCache) (u : String) (e : CacheEntry) :
    cacheGet (cacheSet c u e) u = some e := by
  induction c with
  | nil => simp [cacheSet, cacheGet, List.find?]
  | cons x xs ih =>
    unfold cacheSet
    by_cases hx : x.1 = u
    · rw [if_pos hx]
      simp [cacheGet, List.find?]
    · rw [if_neg hx]
      unfold cacheGet at *
      rw [List.find?_cons_of_neg _ (by simpa using hx)]
      exact ih

lemma countFor_cacheSet (c : UsernameCache) (u : String) (e : CacheEntry)
    (h : countFor c u ≤ 1) : countFor (cacheSet c u e) u = 1 := by
  induction c with
  | nil => simp [cacheSet, countFor]
  | cons x xs ih =>
    unfold cacheSet
    by_cases hx : x.1 = u
    · rw [if_pos hx]
      unfold countFor at *
      rw [List.filter_cons_of_pos (by simpa using hx)] at h
      simp only [List.length_cons] at h
      have hxs : (xs.filter (fun x => x.1 = u)).length = 0 := by omega
      rw [List.filter_cons_of_pos (by simp)]
      simp [hxs]
    · rw [if_neg hx]
      unfold countFor at *
      rw [List.filter_cons_of_neg (by simpa using hx)] at h
      rw [List.filter_cons_of_neg (by simpa using hx)]
      exact ih h

/-- C7: with handle `u` cached at timestamp `T` and TTL `period`, a
resolution at any `now` with `now - T < period` answers from the cache
with no external lookup and no cache change; a resolution with
`now - T ≥ period` treats the entry as stale, performs exactly one
`searchPublicChat` lookup, returns the fresh id, and overwrites the
single cache entry for `u` with the fresh id and the current time. -/
theorem username_cache_ttl (cache : UsernameCache) (period now : Int)
    (lookup : String → Option Int) (u : String) (e : CacheEntry) (fresh_id : Int)
    (hone : countFor cache u ≤ 1) (hget : cacheGet cache u = some e) :
    (now - e.timestamp < period →
      checkChatIdUsername cache period now lookup u = ⟨.ok e.id, cache, []⟩) ∧
    (period ≤ now - e.timestamp → lookup u = some fresh_id →
      (checkChatIdUsername cache period now lookup u).result = .ok fresh_id ∧
      (checkChatIdUsername cache period now lookup u).calls = [.searchPublicChat u] ∧
      cacheGet (checkChatIdUsername cache period now lookup u).cache u =
        some ⟨fresh_id, now⟩ ∧
      countFor (checkChatIdUsername cache period now lookup u).cache u = 1) := by
  constructor
  · intro hfresh
    unfold checkChatIdUsername
    rw [hget]
    simp only [if_pos hfresh]
  · intro hstale hlk
    have hcold : checkChatIdUsername cache period now lookup u =
        ⟨.ok fresh_id, cacheSet cache u ⟨fresh_id, now⟩, [.searchPublicChat u]⟩ := by
      unfold checkChatIdUsername
      rw [hget]
      simp only [if_neg (by omega : ¬ now - e.timestamp < period)]
      unfold freshResolve
      rw [hlk]
    rw [hcold]
    exact ⟨rfl, rfl, cacheGet_cacheSet_self cache u _, countFor_cacheSet cache u _ hone⟩

/-- Witness for C7: handle `"@example"` resolved at time `100` with TTL
`10`, re-resolved while live at `105` and stale at `110`. -/
theorem username_cache_ttl_witness :
    countFor [("@example", ⟨77, 100⟩)] "@example" ≤ 1 ∧
    cacheGet [("@example", ⟨77, 100⟩)] "@example" = some ⟨77, 100⟩ ∧
    ((105 - (100 : Int) < 10 →
      checkChatIdUsername [("@example", ⟨77, 100⟩)] 10 105 (fun _ => some 88) "@example" =
        ⟨.ok 77, [("@example", ⟨77, 100⟩)], []⟩) ∧
    ((10 : Int) ≤ 105 - 100 → (fun _ => some 88 : String → Option Int) "@example" = some 88 →
      (checkChatIdUsername [("@example", ⟨77, 100⟩)] 10 105 (fun _ => some 88)
        "@example").result = .ok 88 ∧
      (checkChatIdUsername [("@example", ⟨77, 100⟩)] 10 105 (fun _ => some 88)
        "@example").calls = [.searchPublicChat "@example"] ∧
      cacheGet (checkChatIdUsername [("@example", ⟨77, 100⟩)] 10 105 (fun _ => some 88)
        "@example").cache "@example" = some ⟨88, 105⟩ ∧
      countFor (checkChatIdUsername [("@example", ⟨77, 100⟩)] 10 105 (fun _ => some 88)
        "@example").cache "@example" = 1)) :=
  ⟨by decide, rfl,
    username_cache_ttl [("@example", ⟨77, 100⟩)] 10 105 (fun _ => some 88) "@example"
      ⟨77, 100⟩ 88 (by decide) rfl⟩

/-! ## Facade operations and the not-ready guard

Most public operations begin with `if (!this.ready) throw new
Error('Not ready.')` before touching the transport; `sendMessage` and
`deleteMessage` do, while `answerCallbackQuery`, `getFile` and
`deleteFile` have no such guard and call `this.run(...)` regardless of
`this.ready`.  The send path is modelled for a plain text message
without `parse_mode`, `reply_to_message_id` or `reply_markup` (those
options only add further transport calls before the send). -/

/-- A `chat_id` argument: already numeric, or a handle to resolve. -/
inductive ChatRef : Type where
  | num (chat_id : Int)
  | name (username : String)
  deriving Repr

/-- The session state the modelled operations touch: `_username_cache`
and `_inited_chat`. -/
structure BotState : Type where
  username_cache : UsernameCache
  inited_chat : List Int
  deriving Repr

/-- `_checkChatId`: `parseInt` for a numeric argument (no cache
interaction), the username-cache path otherwise. -/
def resolveChatRef (cache : UsernameCache) (period now : Int)
    (lookup : String → Option Int) : ChatRef → ResolveResult
  | .num chat_id => ⟨.ok chat_id, cache, []⟩
  | .name u => checkChatIdUsername cache period now lookup u

/-- `sendMessage(chat_id, text)` for a plain text message: not-ready
guard, `_checkChatId`, `_initChatIfNeeded`, `run('sendMessage')`, then
`_waitMessageTillSent(chat_id, old_msg.id)` registering the one-shot
wait for the echoed id `echo_id` as promise `pid`.  Returns the pending
promise id, the new state and registry, and the transport trace. -/
def sendMessageOp (ready : Bool) (tr : Transport) (lookup : String → Option Int)
    (period now : Int) (st : BotState) (reg : Registry) (chat : ChatRef)
    (echo_id : Int) (pid : Nat) :
    Except String Nat × BotState × Registry × List TdCall :=
  if ready = false then (.error "Not ready.", st, reg, [])
  else
    match resolveChatRef st.username_cache period now lookup chat with
    | ⟨.error e, cache2, calls1⟩ => (.error e, ⟨cache2, st.inited_chat⟩, reg, calls1)
    | ⟨.ok cid, cache2, calls1⟩ =>
      if (initChatIfNeeded tr st.inited_chat cid).ok = false then
        (.error "init failed", ⟨cache2, (initChatIfNeeded tr st.inited_chat cid).inited⟩,
          reg, calls1 ++ (initChatIfNeeded tr st.inited_chat cid).trace)
      else if tr (.sendMessage cid) then
        (.ok pid, ⟨cache2, (initChatIfNeeded tr st.inited_chat cid).inited⟩,
          waitMessageTillSent reg cid echo_id pid,
          calls1 ++ (initChatIfNeeded tr st.inited_chat cid).trace ++ [.sendMessage cid])
      else
        (.error "sendMessage failed",
          ⟨cache2, (initChatIfNeeded tr st.inited_chat cid).inited⟩, reg,
          calls1 ++ (initChatIfNeeded tr st.inited_chat cid).trace ++ [.sendMessage cid])

/-- `answerCallbackQuery(callback_query_id, options)`: normalizes its
options and calls `run('answerCallbackQuery', options)` directly — the
source contains no `this.ready` check, so the `ready` argument is
(faithfully) never consulted. -/
def answerCallbackQueryOp (ready : Bool) (tr : Transport) (callback_query_id : Int) :
    Except String Bool × List TdCall :=
  if tr (.answerCallbackQuery callback_query_id) then
    (.ok true, [.answerCallbackQuery callback_query_id])
  else (.error "answerCallbackQuery: not ok", [.answerCallbackQuery callback_query_id])

/-- The `local` part of a tdlib file descriptor (`file.local`). -/
structure TdLocalFile : Type where
  is_downloading_completed : Bool
  is_downloading_active : Bool
  path : String
  deriving Repr

/-- A tdlib file descriptor as returned by `run('getFile')`. -/
structure TdFile : Type where
  id : Int
  size : Int
  local_ : TdLocalFile
  deriving Repr

/-- The event name `` `_fileDownloaded:${id}` `` used as the correlation
key for transfer completions. -/
def fileKey (file_id : Int) : String :=
  "_fileDownloaded:" ++ toString file_id

/-- Outcome of `getFile`: an immediate result for a completed download,
or a pending wait on the file's completion key. -/
inductive GetFileOutcome : Type where
  | immediate (file_id : Int) (file_size : Int) (file_path : String)
  | awaitDownload (key : String)
  deriving DecidableEq, Repr

/-- `getFile(file_id, priority)` for a numeric id: `run('getFile')` with
no `this.ready` check; a completed download returns at once, an active
one registers a one-shot wait on `` `_fileDownloaded:${id}` ``, and
otherwise the priority is clamped to `[1, 32]` and `run('downloadFile')`
is issued alongside the wait. -/
def getFileOp (ready : Bool) (files : Int → TdFile) (file_id : Int) (priority : Int) :
    GetFileOutcome × List TdCall :=
  if (files file_id).local_.is_downloading_completed then
    (.immediate (files file_id).id (files file_id).size (files file_id).local_.path,
      [.getFile file_id])
  else if (files file_id).local_.is_downloading_active then
    (.awaitDownload (fileKey file_id), [.getFile file_id])
  else
    (.awaitDownload (fileKey file_id),
      [.getFile file_id,
        .downloadFile file_id
          (if priority < 1 then 1 else if priority > 32 then 32 else priority)])

/-- A loaded message as `deleteMessage` inspects it. -/
structure MsgInfo : Type where
  id : Int
  can_be_deleted_for_all_users : Bool
  deriving DecidableEq, Repr

/-- `deleteMessage(chat_id, message_ids)`: not-ready guard,
`_checkChatId`, `_initChatIfNeeded`, then `_loadMessageBatch` (a single
`run('getMessages')`, whose response array `msgs` may hold `null`s for
unknown ids and is supplied here as an oracle), keeps the loaded
messages with `can_be_deleted_for_all_users`, returns `true` outright
when none qualify, throws `'Too many messages.'` when more than 100
qualify, and otherwise issues `run('deleteMessages')` for exactly the
qualifying ids with `revoke: true`.  `message_ids` are taken in the
transport's numbering (the `_util.get_tdlib_message_id` transform lives
outside this source file). -/
def deleteMessageOp (ready : Bool) (tr : Transport) (lookup : String → Option Int)
    (period now : Int) (st : BotState) (chat : ChatRef) (message_ids : List Int)
    (msgs : List (Option MsgInfo)) : Except String Bool × BotState × List TdCall :=
  if ready = false then (.error "Not ready.", st, [])
  else
    match resolveChatRef st.username_cache period now lookup chat with
    | ⟨.error e, cache2, calls1⟩ => (.error e, ⟨cache2, st.inited_chat⟩, calls1)
    | ⟨.ok cid, cache2, calls1⟩ =>
      if (initChatIfNeeded tr st.inited_chat cid).ok = false then
        (.error "init failed", ⟨cache2, (initChatIfNeeded tr st.inited_chat cid).inited⟩,
          calls1 ++ (initChatIfNeeded tr st.inited_chat cid).trace)
      else
        let st2 : BotState := ⟨cache2, (initChatIfNeeded tr st.inited_chat cid).inited⟩
        let calls2 := calls1 ++ (initChatIfNeeded tr st.inited_chat cid).trace ++
          [TdCall.getMessages cid message_ids]
        let to_be_deleted :=
          ((msgs.filterMap (fun m => m)).filter
            (fun m => m.can_be_deleted_for_all_users)).map (fun m => m.id)
        if to_be_deleted.length = 0 then (.ok true, st2, calls2)
        else if to_be_deleted.length > 100 then (.error "Too many messages.", st2, calls2)
        else if tr (.deleteMessages cid to_be_deleted true) then
          (.ok true, st2, calls2 ++ [.deleteMessages cid to_be_deleted true])
        else
          (.error "deleteMessages: not ok", st2,
            calls2 ++ [.deleteMessages cid to_be_deleted true])

/-- The ids `deleteMessage` should keep, stated independently: the ids of
the loaded (non-null) messages marked deletable for all users, in
order. -/
def deletableIds (msgs : List (Option MsgInfo)) : List Int :=
  msgs.foldr
    (fun m acc =>
      match m with
      | some mi => if mi.can_be_deleted_for_all_users then mi.id :: acc else acc
      | none => acc)
    []

lemma toBeDeleted_eq_deletableIds (msgs : List (Option MsgInfo)) :
    ((msgs.filterMap (fun m => m)).filter
      (fun m => m.can_be_deleted_for_all_users)).map (fun m => m.id) = deletableIds msgs := by
  induction msgs with
  | nil => rfl
  | cons m ms ih =>
    cases m with
    | none => simpa [deletableIds] using ih
    | some mi =>
      by_cases hc : mi.can_be_deleted_for_all_users = true
      · simp only [deletableIds, List.foldr_cons, List.filterMap_cons, List.filter_cons, hc,
          if_pos trivial, List.map_cons] at *
        simp [ih]
      · simp only [Bool.not_eq_true] at hc
        simp only [deletableIds, List.foldr_cons, List.filterMap_cons, List.filter_cons, hc,
          List.map_cons] at *
        simp [ih]

/-- C4 counterexample: invoked with `ready = false`, `answerCallbackQuery`
still issues its transport call and even resolves successfully, and
`getFile` still issues its transport call — neither rejects and neither
avoids the transport, contrary to the claim for every public facade
operation. -/
theorem notReady_unguarded_ops_call_transport :
    (answerCallbackQueryOp false (fun _ => true) 9).1 = .ok true ∧
    (answerCallbackQueryOp false (fun _ => true) 9).2 = [.answerCallbackQuery 9] ∧
    (getFileOp false (fun _ => ⟨3, 10, ⟨true, false, "/f"⟩⟩) 3 1).2 = [.getFile 3] :=
  ⟨rfl, rfl, rfl⟩

/-- C4 amended: facade operations that begin with the not-ready guard
(`sendMessage` and `deleteMessage` among them) reject immediately with
`'Not ready.'` and issue no transport call when invoked before setup
completes, but `answerCallbackQuery` and `getFile` have no such guard
and issue their transport call whatever the value of `ready`. -/
theorem notReady_guard_behavior (tr : Transport) (lookup : String → Option Int)
    (period now : Int) (st : BotState) (reg : Registry) (chat : ChatRef)
    (echo_id : Int) (pid : Nat) (message_ids : List Int) (msgs : List (Option MsgInfo))
    (ready : Bool) (files : Int → TdFile) (file_id : Int) (priority : Int)
    (callback_query_id : Int) :
    sendMessageOp false tr lookup period now st reg chat echo_id pid =
      (.error "Not ready.", st, reg, []) ∧
    deleteMessageOp false tr lookup period now st chat message_ids msgs =
      (.error "Not ready.", st, []) ∧
    (answerCallbackQueryOp ready tr callback_query_id).2 =
      [.answerCallbackQuery callback_query_id] ∧
    (getFileOp ready files file_id priority).2.head? = some (.getFile file_id) := by
  refine ⟨rfl, rfl, ?_, ?_⟩
  · unfold answerCallbackQueryOp
    split <;> rfl
  · unfold getFileOp
    split
    · rfl
    · split <;> rfl

/-- C10: `deleteMessage` keeps exactly the loaded messages marked
deletable for all users; when none qualify it returns `true` without a
`deleteMessages` call, when more than 100 qualify it throws
`'Too many messages.'` without a `deleteMessages` call, and otherwise it
issues one `deleteMessages` call for exactly the qualifying ids with
`revoke` set, succeeding when the transport does. -/
theorem deleteMessage_filters (tr : Transport) (lookup : String → Option Int)
    (period now : Int) (st : BotState) (cid : Int) (message_ids : List Int)
    (msgs : List (Option MsgInfo)) (hin : cid ∈ st.inited_chat) :
    (deletableIds msgs = [] →
      deleteMessageOp true tr lookup period now st (.num cid) message_ids msgs =
        (.ok true, st, [.getMessages cid message_ids])) ∧
    (100 < (deletableIds msgs).length →
      deleteMessageOp true tr lookup period now st (.num cid) message_ids msgs =
        (.error "Too many messages.", st, [.getMessages cid message_ids])) ∧
    (deletableIds msgs ≠ [] → (deletableIds msgs).length ≤ 100 →
      (deleteMessageOp true tr lookup period now st (.num cid) message_ids msgs).2.2 =
        [.getMessages cid message_ids, .deleteMessages cid (deletableIds msgs) true] ∧
      (tr (.deleteMessages cid (deletableIds msgs) true) = true →
        (deleteMessageOp true tr lookup period now st (.num cid) message_ids msgs).1 =
          .ok true)) := by
  have hinit : initChatIfNeeded tr st.inited_chat cid = ⟨true, st.inited_chat, []⟩ :=
    initChat_of_mem tr st.inited_chat cid hin
  have hbody : deleteMessageOp true tr lookup period now st (.num cid) message_ids msgs =
      (if (deletableIds msgs).length = 0 then (.ok true, st, [.getMessages cid message_ids])
       else if (deletableIds msgs).length > 100 then
        (.error "Too many messages.", st, [.getMessages cid message_ids])
       else if tr (.deleteMessages cid (deletableIds msgs) true) then
        (.ok true, st,
          [.getMessages cid message_ids, .deleteMessages cid (deletableIds msgs) true])
       else
        (.error "deleteMessages: not ok", st,
          [.getMessages cid message_ids, .deleteMessages cid (deletableIds msgs) true])) := by
    unfold deleteMessageOp resolveChatRef
    simp only [hinit, toBeDeleted_eq_deletableIds]
    rfl
  refine ⟨fun hnil => ?_, fun hbig => ?_, fun hne hle => ?_⟩
  · rw [hbody, if_pos (by simp [hnil])]
  · rw [hbody, if_neg (by omega), if_pos hbig]
  · have hlen : ¬ (deletableIds msgs).length = 0 := by
      simpa [List.length_eq_zero] using hne
    constructor
    · rw [hbody, if_neg hlen, if_neg (by omega)]
      split <;> rfl
    · intro htr
      rw [hbody, if_neg hlen, if_neg (by omega), if_pos htr]

/-- Witness for C10: chat `42` already initialized, four addressed
messages of which two (ids `1` and `3`) are deletable for all users, one
is unknown (`null`) and one is not deletable. -/
theorem deleteMessage_filters_witness :
    (42 : Int) ∈ [(42 : Int)] ∧
    (deletableIds [some ⟨1, true⟩, none, some ⟨2, false⟩, some ⟨3, true⟩] ≠ [] ∧
      (deletableIds [some ⟨1, true⟩, none, some ⟨2, false⟩, some ⟨3, true⟩]).length ≤ 100 ∧
      (deleteMessageOp true (fun _ => true) (fun _ => none) 10 0 ⟨[], [42]⟩ (.num 42) [9, 8]
          [some ⟨1, true⟩, none, some ⟨2, false⟩, some ⟨3, true⟩]).2.2 =
        [.getMessages 42 [9, 8],
          .deleteMessages 42
            (deletableIds [some ⟨1, true⟩, none, some ⟨2, false⟩, some ⟨3, true⟩]) true] ∧
      (deleteMessageOp true (fun _ => true) (fun _ => none) 10 0 ⟨[], [42]⟩ (.num 42) [9, 8]
          [some ⟨1, true⟩, none, some ⟨2, false⟩, some ⟨3, true⟩]).1 = .ok true) := by
  have h := deleteMessage_filters (fun _ => true) (fun _ => none) 10 0 ⟨[], [42]⟩ 42 [9, 8]
    [some ⟨1, true⟩, none, some ⟨2, false⟩, some ⟨3, true⟩] (by simp)
  have h3 := h.2.2 (by decide) (by decide)
  exact ⟨by simp, by decide, by decide, h3.1, h3.2 rfl⟩

/-! ## Callback-query payload cipher

When `options.encrypt_callback_query` is set the constructor derives a
256-bit key with `scrypt`; `_parseReplyMarkup` rejects `callback_data`
longer than 48 bytes, draws `iv = crypto.randomBytes(16)`, encrypts with
`aes-256-cfb` and sends `base64(iv ‖ ciphertext)`;
`_processIncomingCallbackQuery` base-64-decodes the token, splits the
first 16 bytes off as the IV and decrypts the rest.  Bytes are `Nat`s
below 256.  CFB with 128-bit feedback only ever applies the block cipher
in the forward direction, so the AES core (an external library
primitive) is a parameter `E` taking the 16-byte feedback register to 16
key-stream bytes; every property below holds for an arbitrary such `E`,
in particular for AES-256 under the session key. -/

/-- Byte-wise XOR of two equal-length byte strings (truncating to the
shorter). -/
def xorBytes (a b : List Nat) : List Nat :=
  List.zipWith (fun x y => x ^^^ y) a b

/-- CFB-128 encryption: each 16-byte plaintext segment is XORed with
`E` of the previous ciphertext segment (initially the IV); the resulting
ciphertext segment becomes the next feedback register. -/
def cfbEncrypt (E : List Nat → List Nat) (prev p : List Nat) : List Nat :=
  if h : p = [] then []
  else
    xorBytes (p.take 16) (E prev) ++
      cfbEncrypt E (xorBytes (p.take 16) (E prev)) (p.drop 16)
termination_by p.length
decreasing_by
  have := List.length_pos.mpr h
  rw [List.length_drop]
  omega

/-- CFB-128 decryption: each 16-byte ciphertext segment is XORed with
`E` of the previous ciphertext segment (initially the IV). -/
def cfbDecrypt (E : List Nat → List Nat) (prev c : List Nat) : List Nat :=
  if h : c = [] then []
  else
    xorBytes (c.take 16) (E prev) ++ cfbDecrypt E (c.take 16) (c.drop 16)
termination_by c.length
decreasing_by
  have := List.length_pos.mpr h
  rw [List.length_drop]
  omega

lemma xorBytes_length (a b : List Nat) : (xorBytes a b).length = min a.length b.length :=
  List.length_zipWith _ a b

lemma cfbEncrypt_nil (E : List Nat → List Nat) (prev : List Nat) :
    cfbEncrypt E prev [] = [] := by
  rw [cfbEncrypt]
  simp

lemma xorBytes_cancel (a ks : List Nat) (h : a.length ≤ ks.length) :
    xorBytes (xorBytes a ks) ks = a := by
  induction a generalizing ks with
  | nil => simp [xorBytes]
  | cons x xs ih =>
    cases ks with
    | nil => simp at h
    | cons k kt =>
      simp only [xorBytes, List.zipWith_cons_cons]
      rw [Nat.xor_cancel_right]
      have := ih kt (by simpa using h)
      simp only [xorBytes] at this
      rw [this]

lemma xorBytes_lt (a : List Nat) : ∀ (b : List Nat), (∀ x ∈ a, x < 256) →
    (∀ x ∈ b, x < 256) → ∀ x ∈ xorBytes a b, x < 256 := by
  induction a with
  | nil => intro b _ _ x hx; simp [xorBytes] at hx
  | cons y ys ih =>
    intro b ha hb x hx
    cases b with
    | nil => simp [xorBytes] at hx
    | cons k kt =>
      simp only [xorBytes, List.zipWith_cons_cons, List.mem_cons] at hx
      cases hx with
      | inl hx =>
        have h1 : y < 2 ^ 8 := ha y (List.mem_cons_self y ys)
        have h2 : k < 2 ^ 8 := hb k (List.mem_cons_self k kt)
        rw [hx]
        exact Nat.xor_lt_two_pow h1 h2
      | inr hx =>
        exact ih kt (fun z hz => ha z (List.mem_cons_of_mem y hz))
          (fun z hz => hb z (List.mem_cons_of_mem k hz)) x hx

lemma cfbEncrypt_length (E : List Nat → List Nat) (hE : ∀ b, (E b).length = 16)
    (prev p : List Nat) : (cfbEncrypt E prev p).length = p.length := by
  by_cases h : p = []
  · rw [h, cfbEncrypt]
    simp
  · rw [cfbEncrypt]
    rw [dif_neg h]
    have ih := cfbEncrypt_length E hE (xorBytes (p.take 16) (E prev)) (p.drop 16)
    rw [List.length_append, ih, xorBytes_length, hE, List.length_take, List.length_drop]
    omega
termination_by p.length
decreasing_by
  have := List.length_pos.mpr h
  rw [List.length_drop]
  omega

lemma cfbEncrypt_lt (E : List Nat → List Nat) (hEb : ∀ b, ∀ x ∈ E b, x < 256)
    (prev p : List Nat) (hp : ∀ x ∈ p, x < 256) : ∀ x ∈ cfbEncrypt E prev p, x < 256 := by
  by_cases h : p = []
  · rw [h, cfbEncrypt]
    simp
  · rw [cfbEncrypt, dif_neg h]
    intro x hx
    rw [List.mem_append] at hx
    have hseg : ∀ y ∈ xorBytes (p.take 16) (E prev), y < 256 :=
      xorBytes_lt _ _ (fun y hy => hp y (List.mem_of_mem_take hy)) (hEb prev)
    cases hx with
    | inl hx => exact hseg x hx
    | inr hx =>
      exact cfbEncrypt_lt E hEb (xorBytes (p.take 16) (E prev)) (p.drop 16)
        (fun y hy => hp y (List.mem_of_mem_drop hy)) x hx
termination_by p.length
decreasing_by
  have := List.length_pos.mpr h
  rw [List.length_drop]
  omega

/-- CFB decryption inverts CFB encryption for any block function `E`
returning 16-byte key streams. -/
lemma cfbDecrypt_cfbEncrypt (E : List Nat → List Nat) (hE : ∀ b, (E b).length = 16)
    (prev p : List Nat) : cfbDecrypt E prev (cfbEncrypt E prev p) = p := by
  by_cases h : p = []
  · rw [h, cfbEncrypt, cfbDecrypt]
    simp
  · rw [cfbEncrypt, dif_neg h]
    set s : List Nat := xorBytes (p.take 16) (E prev) with hs
    set rest : List Nat := cfbEncrypt E s (p.drop 16) with hrest
    have hseglen : s.length = min p.length 16 := by
      rw [hs, xorBytes_length, hE, List.length_take]
      omega
    have hpos : 0 < p.length := List.length_pos.mpr h
    have hsegne : s ≠ [] := by
      intro hnil
      rw [hnil] at hseglen
      simp at hseglen
      omega
    rw [cfbDecrypt, dif_neg (by
      intro hnil
      exact hsegne (List.append_eq_nil.mp hnil).1)]
    have htake : (s ++ rest).take 16 = s := by
      rcases le_or_lt p.length 16 with hle | hlt
      · have hdropnil : p.drop 16 = [] := List.drop_eq_nil_of_le hle
        rw [hrest, hdropnil, cfbEncrypt_nil, List.append_nil]
        apply List.take_of_length_le
        omega
      · have h16 : s.length = 16 := by omega
        rw [← h16, List.take_left]
    have hdrop : (s ++ rest).drop 16 = rest := by
      rcases le_or_lt p.length 16 with hle | hlt
      · have hdropnil : p.drop 16 = [] := List.drop_eq_nil_of_le hle
        rw [hrest, hdropnil, cfbEncrypt_nil, List.append_nil]
        apply List.drop_eq_nil_of_le
        omega
      · have h16 : s.length = 16 := by omega
        rw [← h16, List.drop_left]
    rw [htake, hdrop]
    rw [hs, xorBytes_cancel (p.take 16) (E prev) (by rw [hE]; simp [List.length_take])]
    rw [hrest, hs, cfbDecrypt_cfbEncrypt E hE (xorBytes (p.take 16) (E prev)) (p.drop 16)]
    exact List.take_append_drop 16 p
termination_by p.length
decreasing_by
  have := List.length_pos.mpr h
  rw [List.length_drop]
  omega

/-- The base-64 alphabet (`Buffer.toString('base64')`). -/
def base64Alphabet : List Char :=
  ['A', 'B', 'C', 'D', 'E', 'F', 'G', 'H', 'I', 'J', 'K', 'L', 'M',
   'N', 'O', 'P', 'Q', 'R', 'S', 'T', 'U', 'V', 'W', 'X', 'Y', 'Z',
   'a', 'b', 'c', 'd', 'e', 'f', 'g', 'h', 'i', 'j', 'k', 'l', 'm',
   'n', 'o', 'p', 'q', 'r', 's', 't', 'u', 'v', 'w', 'x', 'y', 'z',
   '0', '1', '2', '3', '4', '5', '6', '7', '8', '9', '+', '/']

/-- The alphabet character of a sextet value. -/
def sextetChar (i : Nat) : Char := base64Alphabet.getD i 'A'

/-- The sextet value of an alphabet character. -/
def charSextet (c : Char) : Nat := base64Alphabet.indexOf c

lemma charSextet_sextetChar : ∀ i < 64, charSextet (sextetChar i) = i := by decide

lemma sextetChar_ne_pad : ∀ i < 64, sextetChar i ≠ '=' := by decide

/-- Base-64 encoding of a byte string (`Buffer.toString('base64')`):
each 3-byte group becomes 4 alphabet characters; a trailing 1- or 2-byte
group is padded with `'='`. -/
def b64encode : List Nat → List Char
  | [] => []
  | [b0] => [sextetChar (b0 / 4), sextetChar (b0 % 4 * 16), '=', '=']
  | [b0, b1] =>
    [sextetChar (b0 / 4), sextetChar (b0 % 4 * 16 + b1 / 16), sextetChar (b1 % 16 * 4), '=']
  | b0 :: b1 :: b2 :: rest =>
    sextetChar (b0 / 4) :: sextetChar (b0 % 4 * 16 + b1 / 16) ::
      sextetChar (b1 % 16 * 4 + b2 / 64) :: sextetChar (b2 % 64) :: b64encode rest

/-- Base-64 decoding (`Buffer.from(token, 'base64')`), on well-formed
tokens: 4 characters decode to 3 bytes, with `'='` padding marking a
short final group. -/
def b64decode : List Char → List Nat
  | c0 :: c1 :: c2 :: c3 :: rest =>
    if c2 = '=' ∧ rest = [] then [charSextet c0 * 4 + charSextet c1 / 16]
    else if c3 = '=' ∧ rest = [] then
      [charSextet c0 * 4 + charSextet c1 / 16,
        charSextet c1 % 16 * 16 + charSextet c2 / 4]
    else
      (charSextet c0 * 4 + charSextet c1 / 16) ::
        (charSextet c1 % 16 * 16 + charSextet c2 / 4) ::
        (charSextet c2 % 4 * 64 + charSextet c3) :: b64decode rest
  | _ => []

lemma b64decode_pad2 (c0 c1 : Char) :
    b64decode [c0, c1, '=', '='] = [charSextet c0 * 4 + charSextet c1 / 16] := rfl

lemma b64decode_pad1 (c0 c1 c2 : Char) (h : ¬ c2 = '=') :
    b64decode [c0, c1, c2, '='] =
      [charSextet c0 * 4 + charSextet c1 / 16,
        charSextet c1 % 16 * 16 + charSextet c2 / 4] := by
  simp only [b64decode]
  rw [if_neg (fun hc => h hc.1), if_pos ⟨trivial, trivial⟩]

lemma b64decode_group (c0 c1 c2 c3 : Char) (rest : List Char)
    (h2 : ¬ c2 = '=') (h3 : ¬ c3 = '=') :
    b64decode (c0 :: c1 :: c2 :: c3 :: rest) =
      (charSextet c0 * 4 + charSextet c1 / 16) ::
        (charSextet c1 % 16 * 16 + charSextet c2 / 4) ::
        (charSextet c2 % 4 * 64 + charSextet c3) :: b64decode rest := by
  simp only [b64decode]
  rw [if_neg (fun hc => h2 hc.1), if_neg (fun hc => h3 hc.1)]

lemma b64decode_b64encode : ∀ (l : List Nat), (∀ b ∈ l, b < 256) →
    b64decode (b64encode l) = l := by
  intro l
  induction l using b64encode.induct with
  | case1 => intro _; rfl
  | case2 b0 =>
    intro h
    have hb0 : b0 < 256 := h b0 (by simp)
    simp only [b64encode]
    rw [b64decode_pad2, charSextet_sextetChar (b0 / 4) (by omega),
      charSextet_sextetChar (b0 % 4 * 16) (by omega)]
    congr 1
    omega
  | case3 b0 b1 =>
    intro h
    have hb0 : b0 < 256 := h b0 (by simp)
    have hb1 : b1 < 256 := h b1 (by simp)
    simp only [b64encode]
    rw [b64decode_pad1 _ _ _ (sextetChar_ne_pad (b1 % 16 * 4) (by omega))]
    rw [charSextet_sextetChar (b0 / 4) (by omega),
      charSextet_sextetChar (b0 % 4 * 16 + b1 / 16) (by omega),
      charSextet_sextetChar (b1 % 16 * 4) (by omega)]
    congr 1
    · omega
    · congr 1
      omega
  | case4 b0 b1 b2 rest ih =>
    intro h
    have hb0 : b0 < 256 := h b0 (by simp)
    have hb1 : b1 < 256 := h b1 (by simp)
    have hb2 : b2 < 256 := h b2 (by simp)
    simp only [b64encode]
    rw [b64decode_group _ _ _ _ _
      (sextetChar_ne_pad (b1 % 16 * 4 + b2 / 64) (by omega))
      (sextetChar_ne_pad (b2 % 64) (by omega))]
    rw [charSextet_sextetChar (b0 / 4) (by omega),
      charSextet_sextetChar (b0 % 4 * 16 + b1 / 16) (by omega),
      charSextet_sextetChar (b1 % 16 * 4 + b2 / 64) (by omega),
      charSextet_sextetChar (b2 % 64) (by omega)]
    rw [ih (fun b hb => h b (by simp [hb]))]
    congr 1
    · omega
    · congr 1
      · omega
      · congr 1
        omega

/-- The `callback_data` branch of `_parseReplyMarkup` with encryption
enabled: reject data over 48 bytes, then send
`base64(iv ‖ aes-256-cfb(key, iv, data))` where `iv` is the fresh
`crypto.randomBytes(16)` drawn for this call (supplied as a parameter)
and `E` is the block function of the session key. -/
def encryptCallbackData (E : List Nat → List Nat) (iv data : List Nat) :
    Except String (List Char) :=
  if data.length > 48 then .error "Payload too long. 48 bytes max."
  else .ok (b64encode (iv ++ cfbEncrypt E iv data))

/-- The `callbackQueryPayloadData` branch of
`_processIncomingCallbackQuery` with encryption enabled: base-64-decode
the token, use the first 16 bytes as the IV (`payload.slice(0, 16)`) and
decrypt the remainder (`payload.slice(16)`). -/
def decryptCallbackData (E : List Nat → List Nat) (token : List Char) : List Nat :=
  cfbDecrypt E ((b64decode token).take 16) ((b64decode token).drop 16)

lemma decode_token (E : List Nat → List Nat) (hE : ∀ b, (E b).length = 16)
    (hEb : ∀ b, ∀ x ∈ E b, x < 256) (iv p : List Nat) (hiv : iv.length = 16)
    (hivb : ∀ x ∈ iv, x < 256) (hpb : ∀ x ∈ p, x < 256) :
    b64decode (b64encode (iv ++ cfbEncrypt E iv p)) = iv ++ cfbEncrypt E iv p ∧
    (iv ++ cfbEncrypt E iv p).take 16 = iv ∧
    (iv ++ cfbEncrypt E iv p).drop 16 = cfbEncrypt E iv p := by
  refine ⟨b64decode_b64encode _ ?_, ?_, ?_⟩
  · intro b hb
    rcases List.mem_append.mp hb with h | h
    · exact hivb b h
    · exact cfbEncrypt_lt E hEb iv p hpb b h
  · rw [← hiv, List.take_left]
  · rw [← hiv, List.drop_left]

/-- C8: with callback-query encryption enabled, for every plaintext of
at most 48 bytes the token round-trips — the token is the base-64
encoding of IV ‖ ciphertext, decryption finds the IV in the first 16
decoded bytes, and recovers the plaintext exactly; and encryptions of
the same plaintext under two distinct fresh 16-byte IVs produce distinct
tokens yet both decrypt to the plaintext.  `E` is the forward AES-256
block function of the session key, used by CFB in both directions. -/
theorem callback_cipher_roundtrip (E : List Nat → List Nat)
    (hE : ∀ b, (E b).length = 16) (hEb : ∀ b, ∀ x ∈ E b, x < 256)
    (iv iv' p : List Nat)
    (hiv : iv.length = 16) (hivb : ∀ x ∈ iv, x < 256)
    (hiv' : iv'.length = 16) (hivb' : ∀ x ∈ iv', x < 256)
    (hp : p.length ≤ 48) (hpb : ∀ x ∈ p, x < 256) :
    (∀ tok, encryptCallbackData E iv p = .ok tok →
      (b64decode tok).take 16 = iv ∧ decryptCallbackData E tok = p) ∧
    (∀ tok, encryptCallbackData E iv' p = .ok tok → decryptCallbackData E tok = p) ∧
    (iv ≠ iv' → encryptCallbackData E iv p ≠ encryptCallbackData E iv' p) := by
  have hok : ∀ (jv : List Nat), encryptCallbackData E jv p =
      .ok (b64encode (jv ++ cfbEncrypt E jv p)) := by
    intro jv
    unfold encryptCallbackData
    rw [if_neg (by omega)]
  have hmain : ∀ (jv : List Nat), jv.length = 16 → (∀ x ∈ jv, x < 256) →
      ∀ tok, encryptCallbackData E jv p = .ok tok →
        (b64decode tok).take 16 = jv ∧ decryptCallbackData E tok = p := by
    intro jv hlen hb tok htok
    rw [hok jv] at htok
    have htok' : tok = b64encode (jv ++ cfbEncrypt E jv p) := (Except.ok.inj htok).symm
    subst htok'
    obtain ⟨hdec, htake, hdrop⟩ := decode_token E hE hEb jv p hlen hb hpb
    constructor
    · rw [hdec, htake]
    · unfold decryptCallbackData
      rw [hdec, htake, hdrop]
      exact cfbDecrypt_cfbEncrypt E hE jv p
  refine ⟨hmain iv hiv hivb, fun tok htok => (hmain iv' hiv' hivb' tok htok).2, ?_⟩
  intro hne heq
  have h1 := (hmain iv hiv hivb _ (hok iv)).1
  have h2 := (hmain iv' hiv' hivb' _ (hok iv')).1
  rw [hok iv, hok iv'] at heq
  have htok : b64encode (iv ++ cfbEncrypt E iv p) =
      b64encode (iv' ++ cfbEncrypt E iv' p) := Except.ok.inj heq
  rw [htok] at h1
  exact hne (h1.symm.trans h2)

/-- Witness for C8: the constant block function returning sixteen `7`s,
the IVs `0,…,15` and `0,…,0`, and the two-byte plaintext `"hi"`. -/
theorem callback_cipher_roundtrip_witness :
    (∀ b : List Nat, ((fun _ => List.replicate 16 7 : List Nat → List Nat) b).length = 16) ∧
    (∀ b : List Nat, ∀ x ∈ (fun _ => List.replicate 16 7 : List Nat → List Nat) b,
      x < 256) ∧
    (List.range 16).length = 16 ∧ (∀ x ∈ List.range 16, x < 256) ∧
    (List.replicate 16 0 : List Nat).length = 16 ∧
    (∀ x ∈ (List.replicate 16 0 : List Nat), x < 256) ∧
    ([104, 105] : List Nat).length ≤ 48 ∧ (∀ x ∈ ([104, 105] : List Nat), x < 256) ∧
    ((∀ tok, encryptCallbackData (fun _ => List.replicate 16 7) (List.range 16) [104, 105] =
        .ok tok →
      (b64decode tok).take 16 = List.range 16 ∧
        decryptCallbackData (fun _ => List.replicate 16 7) tok = [104, 105]) ∧
    (∀ tok, encryptCallbackData (fun _ => List.replicate 16 7) (List.replicate 16 0)
        [104, 105] = .ok tok →
      decryptCallbackData (fun _ => List.replicate 16 7) tok = [104, 105]) ∧
    (List.range 16 ≠ List.replicate 16 0 →
      encryptCallbackData (fun _ => List.replicate 16 7) (List.range 16) [104, 105] ≠
        encryptCallbackData (fun _ => List.replicate 16 7) (List.replicate 16 0)
          [104, 105])) :=
  ⟨fun _ => by simp, fun _ x hx => by
      have := List.eq_of_mem_replicate hx
      omega,
    by simp, by decide, by simp, fun x hx => by
      have := List.eq_of_mem_replicate hx
      omega,
    by decide, by decide,
    callback_cipher_roundtrip (fun _ => List.replicate 16 7)
      (fun _ => by simp)
      (fun _ x hx => by
        have := List.eq_of_mem_replicate hx
        omega)
      (List.range 16) (List.replicate 16 0) [104, 105]
      (by simp) (by decide) (by simp)
      (fun x hx => by
        have := List.eq_of_mem_replicate hx
        omega)
      (by decide) (by decide)⟩

end BotApi
